import Mathlib

/-!
Verification of the topology-generation logic of `pyradox/convnets.py`.

The builders (`GeneralizedDenseNets.__call__`, `GeneralizedVGG.__call__`)
thread an opaque tensor handle through a linear chain of layer applications.
We embed a tensor handle as a `Node`: an atomic input plus one constructor
per layer or module application, recording exactly the parameters the
Python code passes.  The module layers (`DenseNetConvolutionBlock`,
`DenseNetTransitionBlock`, `VGGModule`, `DenselyConnected`) come from
`pyradox.modules` and are used by the builders as opaque callables, so
they appear here as opaque graph constructors carrying their arguments.

Numeric hyperparameters that the builders only store and forward
(growth rate, reduction, epsilon, dropout) are modelled as rationals;
activations as strings; repeat counts and widths as integers, since the
Python code accepts any `int` and performs no validation.
-/

namespace Pyradox

/-- An opaque tensor handle: the atomic input plus one constructor per
layer application performed by `convnets.py`.  Each constructor records
the parameters the source passes to the corresponding layer. -/
inductive Node where
  | input (id : Nat)
  | zeroPadding2D (pt pb pl pr : Nat) (x : Node)
  | conv2D (filters kernel strides : Nat) (use_bias : Bool) (x : Node)
  | batchNormalization (epsilon : Rat) (x : Node)
  | activation (a : String) (x : Node)
  | maxPooling2D (pool strides : Nat) (x : Node)
  | denseNetConvolutionBlock (growth_rate : Rat) (x : Node)
  | denseNetTransitionBlock (reduction : Rat) (x : Node)
  | vggModule (num_conv num_filters : Int) (batch_norm : Bool) (dropout : Rat) (a : String) (x : Node)
  | flatten (x : Node)
  | denselyConnected (units : Int) (batch_norm : Bool) (dropout : Rat) (a : String) (x : Node)
deriving DecidableEq, Repr

/-- One layer application, without its input: the label of one step of the
chain built by a builder invocation. -/
inductive Op where
  | zeroPadding2D (pt pb pl pr : Nat)
  | conv2D (filters kernel strides : Nat) (use_bias : Bool)
  | batchNormalization (epsilon : Rat)
  | activation (a : String)
  | maxPooling2D (pool strides : Nat)
  | denseNetConvolutionBlock (growth_rate : Rat)
  | denseNetTransitionBlock (reduction : Rat)
  | vggModule (num_conv num_filters : Int) (batch_norm : Bool) (dropout : Rat) (a : String)
  | flatten
  | denselyConnected (units : Int) (batch_norm : Bool) (dropout : Rat) (a : String)
deriving DecidableEq, Repr

/-- The ordered list of layer applications that produced a node, from the
first layer applied to the last (the input atom contributes nothing). -/
def trace : Node → List Op
  | .input _ => []
  | .zeroPadding2D a b c d x => trace x ++ [.zeroPadding2D a b c d]
  | .conv2D f k s ub x => trace x ++ [.conv2D f k s ub]
  | .batchNormalization e x => trace x ++ [.batchNormalization e]
  | .activation a x => trace x ++ [.activation a]
  | .maxPooling2D p s x => trace x ++ [.maxPooling2D p s]
  | .denseNetConvolutionBlock g x => trace x ++ [.denseNetConvolutionBlock g]
  | .denseNetTransitionBlock r x => trace x ++ [.denseNetTransitionBlock r]
  | .vggModule nc nf bn d a x => trace x ++ [.vggModule nc nf bn d a]
  | .flatten x => trace x ++ [.flatten]
  | .denselyConnected u bn d a x => trace x ++ [.denselyConnected u bn d a]

/-- `True` exactly on growth-block (`DenseNetConvolutionBlock`) applications. -/
def Op.isGrowthBlock : Op → Bool
  | .denseNetConvolutionBlock _ => true
  | _ => false

/-- `True` exactly on reduction-block (`DenseNetTransitionBlock`) applications. -/
def Op.isReductionBlock : Op → Bool
  | .denseNetTransitionBlock _ => true
  | _ => false

/-- `True` exactly on convolutional-stage (`VGGModule`) applications. -/
def Op.isVGGModule : Op → Bool
  | .vggModule _ _ _ _ _ => true
  | _ => false

/-- `True` exactly on flatten applications. -/
def Op.isFlatten : Op → Bool
  | .flatten => true
  | _ => false

/-- `True` exactly on dense-stage (`DenselyConnected`) applications. -/
def Op.isDenselyConnected : Op → Bool
  | .denselyConnected _ _ _ _ => true
  | _ => false

/-- The configuration stored by `GeneralizedDenseNets.__init__`:
every constructor argument is assigned to a field and never mutated. -/
structure GeneralizedDenseNets where
  blocks : List Int
  growth_rate : Rat
  reduction : Rat
  epsilon : Rat
  activation : String
  use_bias : Bool
deriving DecidableEq, Repr

/-- The Python defaults of `GeneralizedDenseNets.__init__`:
`growth_rate=32, reduction=0.5, epsilon=1.001e-5, activation='relu',
use_bias=False`. -/
def GeneralizedDenseNets.initDefault (blocks : List Int) : GeneralizedDenseNets :=
  ⟨blocks, 32, 1/2, 1001/100000000, "relu", false⟩

/-- `for _ in range(n): x = DenseNetConvolutionBlock(growth_rate=g)(x)`
with `n = b.toNat` iterations (Python `range(b)` is empty for `b < 0`). -/
def applyGrowthBlocks (g : Rat) : Nat → Node → Node
  | 0, x => x
  | n + 1, x => applyGrowthBlocks g n (Node.denseNetConvolutionBlock g x)

/-- One iteration of the outer loop of `GeneralizedDenseNets.__call__`:
`blocks[i]` growth blocks (none when `blocks[i] ≤ 0`, by Python `range`
semantics), then one transition block. -/
def dnStage (self : GeneralizedDenseNets) (b : Int) (x : Node) : Node :=
  Node.denseNetTransitionBlock self.reduction
    (applyGrowthBlocks self.growth_rate b.toNat x)

/-- The outer loop of `GeneralizedDenseNets.__call__`, stage 0 first, the
output of each stage feeding the next. -/
def dnStages (self : GeneralizedDenseNets) : List Int → Node → Node
  | [], x => x
  | b :: bs, x => dnStages self bs (dnStage self b x)

/-- `GeneralizedDenseNets.__call__`, line by line: the fixed stem
(padding, 7x7 stride-2 conv of width 64, batch norm, activation, padding,
3x3 stride-2 max-pool), the stage loop, then the final batch norm and
activation. -/
def GeneralizedDenseNets.call (self : GeneralizedDenseNets) (inputs : Node) : Node :=
  let x := inputs
  let x := Node.zeroPadding2D 3 3 3 3 x
  let x := Node.conv2D 64 7 2 self.use_bias x
  let x := Node.batchNormalization self.epsilon x
  let x := Node.activation self.activation x
  let x := Node.zeroPadding2D 1 1 1 1 x
  let x := Node.maxPooling2D 3 2 x
  let x := dnStages self self.blocks x
  let x := Node.batchNormalization self.epsilon x
  let x := Node.activation self.activation x
  x

/-- `DenselyConnectedConvolutionalNetwork121.__init__`: the generic builder
with repeat-count sequence `[6, 12, 24, 16]` and forwarded hyperparameters. -/
def DenselyConnectedConvolutionalNetwork121.init (growth_rate reduction epsilon : Rat)
    (activation : String) (use_bias : Bool) : GeneralizedDenseNets :=
  ⟨[6, 12, 24, 16], growth_rate, reduction, epsilon, activation, use_bias⟩

/-- The DenseNet-121 preset with all-default hyperparameters. -/
def DenselyConnectedConvolutionalNetwork121.initDefault : GeneralizedDenseNets :=
  DenselyConnectedConvolutionalNetwork121.init 32 (1/2) (1001/100000000) "relu" false

/-- The configuration stored by `GeneralizedVGG.__init__` (the stored
`kwargs` are never read by `__call__` and are omitted). -/
structure GeneralizedVGG where
  conv_config : List (Int × Int)
  dense_config : List Int
  conv_batch_norm : Bool
  conv_dropout : Rat
  conv_activation : String
  dense_batch_norm : Bool
  dense_dropout : Rat
  dense_activation : String
deriving DecidableEq, Repr

/-- The convolutional loop of `GeneralizedVGG.__call__`: one `VGGModule`
per `(num_conv, num_filters)` pair, in sequence order, each output feeding
the next stage. -/
def vggConvStages (self : GeneralizedVGG) : List (Int × Int) → Node → Node
  | [], x => x
  | (num_conv, num_filters) :: rest, x =>
      vggConvStages self rest
        (Node.vggModule num_conv num_filters self.conv_batch_norm
          self.conv_dropout self.conv_activation x)

/-- The dense loop of `GeneralizedVGG.__call__`: one `DenselyConnected`
per width, in sequence order. -/
def vggDenseStages (self : GeneralizedVGG) : List Int → Node → Node
  | [], x => x
  | u :: rest, x =>
      vggDenseStages self rest
        (Node.denselyConnected u self.dense_batch_norm
          self.dense_dropout self.dense_activation x)

/-- `GeneralizedVGG.__call__`, line by line: the convolutional stages,
then `Flatten` exactly when `len(dense_config) > 0`, then the dense
stages. -/
def GeneralizedVGG.call (self : GeneralizedVGG) (inputs : Node) : Node :=
  let x := inputs
  let x := vggConvStages self self.conv_config x
  let x := if self.dense_config.length > 0 then Node.flatten x else x
  let x := vggDenseStages self self.dense_config x
  x

/-- `VGG16.__init__`: the fixed five-stage convolutional configuration and
the dense configuration `[4096, 4096]` when `use_dense`, else `[]`. -/
def VGG16.init (conv_batch_norm : Bool) (conv_dropout : Rat) (conv_activation : String)
    (use_dense : Bool) (dense_batch_norm : Bool) (dense_dropout : Rat)
    (dense_activation : String) : GeneralizedVGG :=
  ⟨[(2, 64), (2, 128), (3, 256), (3, 512), (3, 512)],
   if use_dense then [4096, 4096] else [],
   conv_batch_norm, conv_dropout, conv_activation,
   dense_batch_norm, dense_dropout, dense_activation⟩

/-- The VGG16 preset with all hyperparameters at their Python defaults
except the explicit `use_dense` flag. -/
def VGG16.initDefault (use_dense : Bool) : GeneralizedVGG :=
  VGG16.init false 0 "relu" use_dense false 0 "relu"

/-- The operations of the fixed stem of `GeneralizedDenseNets.__call__`. -/
def dnStemOps (self : GeneralizedDenseNets) : List Op :=
  [.zeroPadding2D 3 3 3 3, .conv2D 64 7 2 self.use_bias,
   .batchNormalization self.epsilon, .activation self.activation,
   .zeroPadding2D 1 1 1 1, .maxPooling2D 3 2]

/-- The operations of the final normalization/activation tail of
`GeneralizedDenseNets.__call__`. -/
def dnTailOps (self : GeneralizedDenseNets) : List Op :=
  [.batchNormalization self.epsilon, .activation self.activation]

/-- The operations contributed by one stage of the Block-Repeating
Builder: the growth blocks of the stage followed by its reduction block. -/
def dnStageOps (self : GeneralizedDenseNets) (b : Int) : List Op :=
  List.replicate b.toNat (Op.denseNetConvolutionBlock self.growth_rate) ++
    [Op.denseNetTransitionBlock self.reduction]

/-- The operation applied by one convolutional stage of
`GeneralizedVGG.__call__` for one `(num_conv, num_filters)` pair. -/
def vggStageOp (self : GeneralizedVGG) (p : Int × Int) : Op :=
  Op.vggModule p.1 p.2 self.conv_batch_norm self.conv_dropout self.conv_activation

/-- The operation applied by one dense stage of `GeneralizedVGG.__call__`
for one width. -/
def vggDenseOp (self : GeneralizedVGG) (u : Int) : Op :=
  Op.denselyConnected u self.dense_batch_norm self.dense_dropout self.dense_activation

theorem countP_replicate (p : α → Bool) (n : Nat) (a : α) :
    (List.replicate n a).countP p = if p a then n else 0 := by
  induction n with
  | zero => simp
  | succ n ih => rw [List.replicate_succ, List.countP_cons, ih]; split <;> simp [*]

theorem trace_applyGrowthBlocks (g : Rat) (n : Nat) (x : Node) :
    trace (applyGrowthBlocks g n x) =
      trace x ++ List.replicate n (Op.denseNetConvolutionBlock g) := by
  induction n generalizing x with
  | zero => simp [applyGrowthBlocks]
  | succ n ih =>
    rw [applyGrowthBlocks, ih, List.replicate_succ]
    simp [trace]

theorem trace_dnStage (self : GeneralizedDenseNets) (b : Int) (x : Node) :
    trace (dnStage self b x) = trace x ++ dnStageOps self b := by
  simp [dnStage, trace, trace_applyGrowthBlocks, dnStageOps]

theorem trace_dnStages (self : GeneralizedDenseNets) (bs : List Int) (x : Node) :
    trace (dnStages self bs x) = trace x ++ bs.flatMap (dnStageOps self) := by
  induction bs generalizing x with
  | nil => simp [dnStages]
  | cons b bs ih => rw [dnStages, ih, trace_dnStage]; simp

theorem trace_dnCall (self : GeneralizedDenseNets) (x : Node) :
    trace (self.call x) =
      trace x ++ dnStemOps self ++ self.blocks.flatMap (dnStageOps self) ++ dnTailOps self := by
  simp [GeneralizedDenseNets.call, trace, trace_dnStages, dnStemOps, dnTailOps]

theorem countP_dnStageOps_growth (self : GeneralizedDenseNets) (b : Int) :
    (dnStageOps self b).countP Op.isGrowthBlock = b.toNat := by
  simp [dnStageOps, List.countP_append, countP_replicate, List.countP_cons, Op.isGrowthBlock]

theorem countP_dnStageOps_reduction (self : GeneralizedDenseNets) (b : Int) :
    (dnStageOps self b).countP Op.isReductionBlock = 1 := by
  simp [dnStageOps, List.countP_append, countP_replicate, List.countP_cons, Op.isReductionBlock]

theorem countP_dnStages_growth (self : GeneralizedDenseNets) (bs : List Int) :
    (bs.flatMap (dnStageOps self)).countP Op.isGrowthBlock = (bs.map Int.toNat).sum := by
  induction bs with
  | nil => simp
  | cons b bs ih => simp [List.countP_append, countP_dnStageOps_growth, ih]

theorem countP_dnStages_reduction (self : GeneralizedDenseNets) (bs : List Int) :
    (bs.flatMap (dnStageOps self)).countP Op.isReductionBlock = bs.length := by
  induction bs with
  | nil => simp
  | cons b bs ih => simp [List.countP_append, countP_dnStageOps_reduction, ih]; omega

theorem map_toNat_sum (bs : List Int) (h : ∀ b ∈ bs, 0 ≤ b) :
    (bs.map Int.toNat).sum = bs.sum.toNat := by
  induction bs with
  | nil => simp
  | cons b bs ih =>
    have hb : 0 ≤ b := h b (by simp)
    have ht : ∀ x ∈ bs, (0:Int) ≤ x := fun x hx => h x (by simp [hx])
    have hs : 0 ≤ bs.sum := List.sum_nonneg ht
    simp [List.sum_cons, Int.toNat_add hb hs, ih ht]

theorem countP_dnStemOps_growth (self : GeneralizedDenseNets) :
    (dnStemOps self).countP Op.isGrowthBlock = 0 := by
  simp [dnStemOps, List.countP_cons, Op.isGrowthBlock]

theorem countP_dnStemOps_reduction (self : GeneralizedDenseNets) :
    (dnStemOps self).countP Op.isReductionBlock = 0 := by
  simp [dnStemOps, List.countP_cons, Op.isReductionBlock]

theorem countP_dnTailOps_growth (self : GeneralizedDenseNets) :
    (dnTailOps self).countP Op.isGrowthBlock = 0 := by
  simp [dnTailOps, List.countP_cons, Op.isGrowthBlock]

theorem countP_dnTailOps_reduction (self : GeneralizedDenseNets) :
    (dnTailOps self).countP Op.isReductionBlock = 0 := by
  simp [dnTailOps, List.countP_cons, Op.isReductionBlock]

theorem trace_vggConvStages (self : GeneralizedVGG) (cc : List (Int × Int)) (x : Node) :
    trace (vggConvStages self cc x) = trace x ++ cc.map (vggStageOp self) := by
  induction cc generalizing x with
  | nil => simp [vggConvStages]
  | cons p rest ih =>
    obtain ⟨a, b⟩ := p
    rw [vggConvStages, ih]
    simp [trace, vggStageOp]

theorem trace_vggDenseStages (self : GeneralizedVGG) (dc : List Int) (x : Node) :
    trace (vggDenseStages self dc x) = trace x ++ dc.map (vggDenseOp self) := by
  induction dc generalizing x with
  | nil => simp [vggDenseStages]
  | cons u rest ih =>
    rw [vggDenseStages, ih]
    simp [trace, vggDenseOp]

theorem trace_vggCall (self : GeneralizedVGG) (x : Node) :
    trace (self.call x) =
      trace x ++ self.conv_config.map (vggStageOp self) ++
        (if self.dense_config.length > 0 then [Op.flatten] else []) ++
        self.dense_config.map (vggDenseOp self) := by
  by_cases h : self.dense_config.length > 0 <;>
    simp [GeneralizedVGG.call, h, trace_vggDenseStages, trace_vggConvStages, trace]

theorem countP_map_vggStageOp (self : GeneralizedVGG) (cc : List (Int × Int)) :
    (cc.map (vggStageOp self)).countP Op.isVGGModule = cc.length := by
  rw [List.countP_map]
  rw [List.countP_eq_length.mpr (fun a _ => by simp [vggStageOp, Op.isVGGModule, Function.comp])]

theorem countP_map_vggStageOp_flatten (self : GeneralizedVGG) (cc : List (Int × Int)) :
    (cc.map (vggStageOp self)).countP Op.isFlatten = 0 := by
  rw [List.countP_map]
  rw [List.countP_eq_zero.mpr (fun a _ => by simp [vggStageOp, Op.isFlatten, Function.comp])]

theorem countP_map_vggDenseOp_flatten (self : GeneralizedVGG) (dc : List Int) :
    (dc.map (vggDenseOp self)).countP Op.isFlatten = 0 := by
  rw [List.countP_map]
  rw [List.countP_eq_zero.mpr (fun a _ => by simp [vggDenseOp, Op.isFlatten, Function.comp])]

theorem countP_map_vggDenseOp_vgg (self : GeneralizedVGG) (dc : List Int) :
    (dc.map (vggDenseOp self)).countP Op.isVGGModule = 0 := by
  rw [List.countP_map]
  rw [List.countP_eq_zero.mpr (fun a _ => by simp [vggDenseOp, Op.isVGGModule, Function.comp])]

/-- C1: for every valid (all-nonnegative) repeat-count sequence, a
`GeneralizedDenseNets` invocation appends, after the stem, one block of
operations per stage — stage `i` contributing exactly `blocks[i]` growth
blocks (`DenseNetConvolutionBlock`) followed by exactly one reduction
block (`DenseNetTransitionBlock`) — and the totals over the whole graph
are `sum(blocks)` growth blocks and `length(blocks)` reduction blocks. -/
theorem dn_call_growth_reduction_counts (cfg : GeneralizedDenseNets) (x : Node)
    (hvalid : ∀ b ∈ cfg.blocks, 0 ≤ b) :
    trace (cfg.call x) =
      trace x ++ dnStemOps cfg ++ cfg.blocks.flatMap (dnStageOps cfg) ++ dnTailOps cfg
    ∧ (∀ b ∈ cfg.blocks, dnStageOps cfg b =
        List.replicate b.toNat (Op.denseNetConvolutionBlock cfg.growth_rate) ++
          [Op.denseNetTransitionBlock cfg.reduction])
    ∧ (trace (cfg.call x)).countP Op.isGrowthBlock =
        (trace x).countP Op.isGrowthBlock + cfg.blocks.sum.toNat
    ∧ (trace (cfg.call x)).countP Op.isReductionBlock =
        (trace x).countP Op.isReductionBlock + cfg.blocks.length := by
  refine ⟨trace_dnCall cfg x, fun b _ => rfl, ?_, ?_⟩
  · rw [trace_dnCall, List.countP_append, List.countP_append, List.countP_append,
      countP_dnStemOps_growth, countP_dnTailOps_growth, countP_dnStages_growth,
      map_toNat_sum cfg.blocks hvalid]
    omega
  · rw [trace_dnCall, List.countP_append, List.countP_append, List.countP_append,
      countP_dnStemOps_reduction, countP_dnTailOps_reduction, countP_dnStages_reduction]
    omega

/-- Witness for C1 at the concrete valid sequence `[2, 0, 1]`. -/
theorem dn_call_growth_reduction_counts_witness :
    (trace ((GeneralizedDenseNets.initDefault [2, 0, 1]).call (Node.input 0))).countP
        Op.isGrowthBlock = 3
    ∧ (trace ((GeneralizedDenseNets.initDefault [2, 0, 1]).call (Node.input 0))).countP
        Op.isReductionBlock = 3 := by
  have h := dn_call_growth_reduction_counts (GeneralizedDenseNets.initDefault [2, 0, 1])
    (Node.input 0) (by decide)
  exact ⟨by simpa [trace] using h.2.2.1, by simpa [trace] using h.2.2.2⟩

/-- C2: for every valid sequence of (repeat-count, width) pairs, a
`GeneralizedVGG` invocation applies exactly one `VGGModule` per pair, in
sequence order, the `j`-th receiving exactly the repeat-count and width of
the `j`-th pair together with the shared convolutional toggles; the total
number of `VGGModule` applications equals the length of the sequence. -/
theorem vgg_call_conv_stage_application (cfg : GeneralizedVGG) (x : Node)
    (hvalid : ∀ p ∈ cfg.conv_config, 0 < p.1 ∧ 0 < p.2) :
    trace (cfg.call x) =
      trace x ++ cfg.conv_config.map (vggStageOp cfg) ++
        (if cfg.dense_config.length > 0 then [Op.flatten] else []) ++
        cfg.dense_config.map (vggDenseOp cfg)
    ∧ (∀ p ∈ cfg.conv_config, vggStageOp cfg p =
        Op.vggModule p.1 p.2 cfg.conv_batch_norm cfg.conv_dropout cfg.conv_activation)
    ∧ (trace (cfg.call x)).countP Op.isVGGModule =
        (trace x).countP Op.isVGGModule + cfg.conv_config.length := by
  refine ⟨trace_vggCall cfg x, fun p _ => rfl, ?_⟩
  rw [trace_vggCall, List.countP_append, List.countP_append, List.countP_append,
    countP_map_vggStageOp, countP_map_vggDenseOp_vgg]
  have hflat : (if cfg.dense_config.length > 0 then [Op.flatten] else []).countP
      Op.isVGGModule = 0 := by
    split <;> simp [List.countP_cons, Op.isVGGModule]
  omega

/-- Witness for C2 at the concrete valid sequence `[(1, 8), (2, 16)]`. -/
theorem vgg_call_conv_stage_application_witness :
    (trace ((⟨[(1, 8), (2, 16)], [], false, 0, "relu", false, 0, "relu"⟩ :
        GeneralizedVGG).call (Node.input 0))).countP Op.isVGGModule = 2 := by
  have h := vgg_call_conv_stage_application
    ⟨[(1, 8), (2, 16)], [], false, 0, "relu", false, 0, "relu"⟩ (Node.input 0) (by decide)
  simpa [trace] using h.2.2

/-- C3: in every `GeneralizedVGG` invocation the flatten operation occurs
exactly once when the dense-stage width sequence is non-empty and never
otherwise, and it sits immediately after the last convolutional stage and
before every dense stage. -/
theorem vgg_call_flatten_iff_dense (cfg : GeneralizedVGG) (x : Node) :
    (trace (cfg.call x)).countP Op.isFlatten =
      (trace x).countP Op.isFlatten + (if cfg.dense_config.length > 0 then 1 else 0)
    ∧ trace (cfg.call x) =
        trace x ++ cfg.conv_config.map (vggStageOp cfg) ++
          (if cfg.dense_config.length > 0 then [Op.flatten] else []) ++
          cfg.dense_config.map (vggDenseOp cfg) := by
  refine ⟨?_, trace_vggCall cfg x⟩
  rw [trace_vggCall, List.countP_append, List.countP_append, List.countP_append,
    countP_map_vggStageOp_flatten, countP_map_vggDenseOp_flatten]
  have hflat : (if cfg.dense_config.length > 0 then [Op.flatten] else []).countP
      Op.isFlatten = if cfg.dense_config.length > 0 then 1 else 0 := by
    split <;> simp [List.countP_cons, Op.isFlatten]
  omega

/-- C4 counterexample: with the invalid repeat-count sequence `[-1]` the
Block-Repeating Builder does not fail — it completes and invokes the
stage's reduction-block module (one `DenseNetTransitionBlock` application
in the nine-operation output graph), contradicting the claim that
construction fails before any module is invoked. -/
theorem dn_call_negative_count_no_failure :
    (trace (GeneralizedDenseNets.call ⟨[-1], 32, 1, 1, "relu", false⟩
        (Node.input 0))).countP Op.isReductionBlock = 1
    ∧ (trace (GeneralizedDenseNets.call ⟨[-1], 32, 1, 1, "relu", false⟩
        (Node.input 0))).countP Op.isGrowthBlock = 0
    ∧ (trace (GeneralizedDenseNets.call ⟨[-1], 32, 1, 1, "relu", false⟩
        (Node.input 0))).length = 9 := by
  decide

/-- C4 amended: neither builder validates its Stage Specification and
neither has a failure path of its own: for every configuration, valid or
not, construction completes and produces the full graph, a negative
repeat count contributing zero growth blocks (Python `range` semantics)
while its reduction block is still applied, and non-positive
repeat-counts and widths being passed unchanged to the stage modules. -/
theorem builders_no_validation_never_fail (cfg : GeneralizedDenseNets)
    (vcfg : GeneralizedVGG) (x y : Node) :
    trace (cfg.call x) =
      trace x ++ dnStemOps cfg ++ cfg.blocks.flatMap (dnStageOps cfg) ++ dnTailOps cfg
    ∧ trace (vcfg.call y) =
        trace y ++ vcfg.conv_config.map (vggStageOp vcfg) ++
          (if vcfg.dense_config.length > 0 then [Op.flatten] else []) ++
          vcfg.dense_config.map (vggDenseOp vcfg) :=
  ⟨trace_dnCall cfg x, trace_vggCall vcfg y⟩

/-- C5: the VGG16 preset with `use_dense = true` (its default) builds, for
any input, exactly five `VGGModule` stages with repeat-counts
`[2, 2, 3, 3, 3]` and widths `[64, 128, 256, 512, 512]` in that order,
then one flatten, then two `DenselyConnected` stages of width 4096; with
`use_dense = false` the same five stages are built and both the flatten
and all dense stages are absent. -/
theorem vgg16_default_structure (x : Node) :
    trace ((VGG16.initDefault true).call x) =
      trace x ++ [.vggModule 2 64 false 0 "relu", .vggModule 2 128 false 0 "relu",
        .vggModule 3 256 false 0 "relu", .vggModule 3 512 false 0 "relu",
        .vggModule 3 512 false 0 "relu", .flatten,
        .denselyConnected 4096 false 0 "relu", .denselyConnected 4096 false 0 "relu"]
    ∧ trace ((VGG16.initDefault false).call x) =
      trace x ++ [.vggModule 2 64 false 0 "relu", .vggModule 2 128 false 0 "relu",
        .vggModule 3 256 false 0 "relu", .vggModule 3 512 false 0 "relu",
        .vggModule 3 512 false 0 "relu"] := by
  constructor <;>
    simp [trace_vggCall, VGG16.initDefault, VGG16.init, vggStageOp, vggDenseOp]

/-- C6: the DenseNet-121 preset with all-default hyperparameters produces,
for every input handle, exactly the graph of the generic
`GeneralizedDenseNets` builder invoked with repeat-count sequence
`[6, 12, 24, 16]` and the same default growth rate, reduction, epsilon,
activation and bias flag. -/
theorem densenet121_refines_generalized (x : Node) :
    DenselyConnectedConvolutionalNetwork121.initDefault.call x =
      (GeneralizedDenseNets.initDefault [6, 12, 24, 16]).call x := rfl

/-- C7: with an empty repeat-count sequence the Block-Repeating Builder
succeeds and produces exactly the fixed stem (padding, 7x7 stride-2
convolution of width 64, batch normalization, activation, padding, 3x3
stride-2 max-pooling) followed by the final batch normalization and
activation, with zero growth-block and zero reduction-block
applications. -/
theorem dn_call_empty_blocks_stem_tail (gr red eps : Rat) (act : String) (ub : Bool)
    (x : Node) :
    trace (GeneralizedDenseNets.call ⟨[], gr, red, eps, act, ub⟩ x) =
      trace x ++ [.zeroPadding2D 3 3 3 3, .conv2D 64 7 2 ub, .batchNormalization eps,
        .activation act, .zeroPadding2D 1 1 1 1, .maxPooling2D 3 2,
        .batchNormalization eps, .activation act]
    ∧ (trace (GeneralizedDenseNets.call ⟨[], gr, red, eps, act, ub⟩ x)).countP
        Op.isGrowthBlock = (trace x).countP Op.isGrowthBlock
    ∧ (trace (GeneralizedDenseNets.call ⟨[], gr, red, eps, act, ub⟩ x)).countP
        Op.isReductionBlock = (trace x).countP Op.isReductionBlock := by
  refine ⟨?_, ?_, ?_⟩
  · rw [trace_dnCall]; simp [dnStemOps, dnTailOps]
  · rw [trace_dnCall, List.countP_append, List.countP_append, List.countP_append,
      countP_dnStemOps_growth, countP_dnTailOps_growth]
    simp
  · rw [trace_dnCall, List.countP_append, List.countP_append, List.countP_append,
      countP_dnStemOps_reduction, countP_dnTailOps_reduction]
    simp

/-- C8: whenever entry `i` of the repeat-count sequence is zero, stage `i`
of the Block-Repeating Builder contributes zero growth blocks and still
exactly one reduction block, and the built graph is the stem followed by
the concatenated per-stage contributions and the tail. -/
theorem dn_call_zero_count_stage (cfg : GeneralizedDenseNets) (x : Node) (i : Nat)
    (h : i < cfg.blocks.length) (hz : cfg.blocks.get ⟨i, h⟩ = 0) :
    dnStageOps cfg (cfg.blocks.get ⟨i, h⟩) = [Op.denseNetTransitionBlock cfg.reduction]
    ∧ (dnStageOps cfg (cfg.blocks.get ⟨i, h⟩)).countP Op.isGrowthBlock = 0
    ∧ (dnStageOps cfg (cfg.blocks.get ⟨i, h⟩)).countP Op.isReductionBlock = 1
    ∧ trace (cfg.call x) =
        trace x ++ dnStemOps cfg ++ cfg.blocks.flatMap (dnStageOps cfg) ++ dnTailOps cfg := by
  rw [hz]
  refine ⟨rfl, ?_, ?_, trace_dnCall cfg x⟩
  · simp [dnStageOps, List.countP_cons, Op.isGrowthBlock]
  · simp [dnStageOps, List.countP_cons, Op.isReductionBlock]

/-- Witness for C8 at the concrete sequence `[0]`, stage 0. -/
theorem dn_call_zero_count_stage_witness :
    dnStageOps (GeneralizedDenseNets.initDefault [0]) 0 =
      [Op.denseNetTransitionBlock (GeneralizedDenseNets.initDefault [0]).reduction]
    ∧ (dnStageOps (GeneralizedDenseNets.initDefault [0]) 0).countP Op.isGrowthBlock = 0 := by
  have h := dn_call_zero_count_stage (GeneralizedDenseNets.initDefault [0]) (Node.input 0) 0
    (by decide) (by decide)
  exact ⟨by simpa using h.1, by simpa using h.2.1⟩

/-- C9: both builders are deterministic pure functions of their
configuration and input handle: invocations with equal configurations and
equal inputs produce identical graphs.  In this embedding each call reads
its configuration and never writes it, so no configuration field and no
cross-invocation state can be mutated. -/
theorem builders_deterministic (c1 c2 : GeneralizedDenseNets) (v1 v2 : GeneralizedVGG)
    (x1 x2 y1 y2 : Node) (hc : c1 = c2) (hx : x1 = x2) (hv : v1 = v2) (hy : y1 = y2) :
    c1.call x1 = c2.call x2 ∧ v1.call y1 = v2.call y2 := by
  subst hc; subst hx; subst hv; subst hy
  exact ⟨rfl, rfl⟩

/-- Witness for C9 at concrete equal configurations and inputs. -/
theorem builders_deterministic_witness :
    (GeneralizedDenseNets.initDefault [1]).call (Node.input 0) =
      (GeneralizedDenseNets.initDefault [1]).call (Node.input 0)
    ∧ (VGG16.initDefault true).call (Node.input 1) =
        (VGG16.initDefault true).call (Node.input 1) :=
  builders_deterministic _ _ _ _ _ _ _ _ rfl rfl rfl rfl

/-- C10: with an empty convolutional-stage sequence and an empty
dense-stage sequence, `GeneralizedVGG.__call__` returns its input handle
unchanged: no module, no flatten, no operation at all. -/
theorem vgg_call_empty_configs_identity (cbn : Bool) (cdo : Rat) (cact : String)
    (dbn : Bool) (ddo : Rat) (dact : String) (x : Node) :
    GeneralizedVGG.call ⟨[], [], cbn, cdo, cact, dbn, ddo, dact⟩ x = x := rfl

end Pyradox
